import Mathlib

/-!
Shallow embedding of the Hetzner failover-IP configurer from
src/ipmanager/hetznerConfigurer.go.

The configurer keeps a tri-state cached belief about ownership of the
floating IP plus the time of the last API check, queries the Hetzner
robot API through curl, parses the JSON answer and compares the reported
active_server_ip with the outbound IP address of this node.

Effects are made explicit:
  - the current wall-clock time (time.Now) is a parameter, in nanoseconds
    since the epoch, matching the Go int64 Duration arithmetic;
  - the transport outcome of the curl call is a parameter of type
    Option Body (none models a transport-level error, in which case the
    Go code receives an empty response string whose unmarshalling fails);
  - the outbound IP of the node (getOutboundIP) is a parameter; the empty byte
    list models the nil net.IP returned when no route exists.  A single
    call of the Go code may invoke getOutboundIP more than once; the model
    assumes the routing table does not change within one call.
JSON bodies are modelled post-unmarshal: Body.invalid covers any text that
json.Unmarshal rejects (including the empty string produced by a failed
curl) as well as non-object top levels; Body.json f is a successfully
unmarshalled top-level object.
-/

namespace VipManager

/-- Cached ownership belief; the Go source uses the iota constants
unknown = 0, configured = 1, released = 2. -/
inductive CachedState where
  | unknown
  | configured
  | released
deriving DecidableEq, Repr

/-- Go net.IP is a byte slice; the empty list models the nil IP. -/
abbrev IP := List Nat

/-- Leading 12 bytes of the 16-byte form of an IPv4 address
(the v4-in-v6 marker bytes of the Go net package). -/
def v4in6Lead : IP := [0, 0, 0, 0, 0, 0, 0, 0, 0, 0, 0xFF, 0xFF]

/-- Go net.IP.Equal: byte-wise equality, identifying an IPv4 address with
its 16-byte v4-in-v6 form.  Two nil IPs (empty lists) are equal. -/
def ipEqual (ip x : IP) : Bool :=
  if ip.length = x.length then ip == x
  else if ip.length = 4 ∧ x.length = 16 then
    (x.take 12 == v4in6Lead) && (ip == x.drop 12)
  else if ip.length = 16 ∧ x.length = 4 then
    (ip.take 12 == v4in6Lead) && (x == ip.drop 12)
  else false

/-- Decimal scan of dtoi of the Go net package: value so far, digit count so far;
stops at the first non-digit, fails (ok = false) on overflow past
0xFFFFFF. -/
def dtoiAux : List Char → Nat → Nat → Nat × Nat × Bool
  | [], n, i => (n, i, true)
  | ch :: rest, n, i =>
    if '0' ≤ ch ∧ ch ≤ '9' then
      let n2 := n * 10 + (ch.toNat - '0'.toNat)
      if 0xFFFFFF ≤ n2 then (0xFFFFFF, i + 1, false)
      else dtoiAux rest n2 (i + 1)
    else (n, i, true)

/-- dtoi of the Go net package: reads a decimal number, also failing when no digit at
all was read. -/
def dtoi (s : List Char) : Nat × Nat × Bool :=
  let r := dtoiAux s 0 0
  if r.2.1 = 0 then (0, 0, false) else r

/-- Field loop of parseIPv4 of the Go net package: four decimal fields separated by
dots, each at most 0xFF, no leading zeros, nothing left over. -/
def parseV4Loop : Nat → List Char → List Nat → Option (List Nat)
  | 0, s, acc => if s = [] then some acc.reverse else none
  | k + 1, s, acc =>
    match (if acc = [] then some s else
            match s with
            | '.' :: rest => some rest
            | _ => none) with
    | none => none
    | some t =>
      match dtoi t with
      | (n, cnt, ok) =>
        if ok = false ∨ 0xFF < n then none
        else if 1 < cnt ∧ t.head? = some '0' then none
        else parseV4Loop k (t.drop cnt) (n :: acc)

/-- parseIPv4 of the Go net package; a successful parse yields the 16-byte form, as
the Go function returns IPv4(a, b, c, d). -/
def parseIPv4 (s : String) : IP :=
  match parseV4Loop 4 s.toList [] with
  | some bs => v4in6Lead ++ bs
  | none => []

/-- Hexadecimal scan of xtoi of the Go net package; stops at the first non-hex digit,
fails on overflow past 0xFFFFFF. -/
def xtoiAux : List Char → Nat → Nat → Nat × Nat × Bool
  | [], n, i => (n, i, true)
  | ch :: rest, n, i =>
    match (if '0' ≤ ch ∧ ch ≤ '9' then some (ch.toNat - '0'.toNat)
           else if 'a' ≤ ch ∧ ch ≤ 'f' then some (ch.toNat - 'a'.toNat + 10)
           else if 'A' ≤ ch ∧ ch ≤ 'F' then some (ch.toNat - 'A'.toNat + 10)
           else none) with
    | none => (n, i, true)
    | some d =>
      let n2 := n * 16 + d
      if 0xFFFFFF ≤ n2 then (0, i, false)
      else xtoiAux rest n2 (i + 1)

/-- xtoi of the Go net package: reads a hexadecimal number, failing when no digit at
all was read. -/
def xtoi (s : List Char) : Nat × Nat × Bool :=
  let r := xtoiAux s 0 0
  if r.2.1 = 0 then (0, 0, false) else r

/-- Group loop of parseIPv6 of the Go net package: hexadecimal groups of at most
0xFFFF separated by colons, at most one ellipsis (recorded with the byte
position it occupies), and an optional embedded dotted IPv4 tail.
The accumulated byte list plays the role of the in-place array prefix of
length i; the remaining character list is returned for the final
emptiness check.  Zone suffixes are not modelled (no claim involves
them). -/
def parseV6Loop : Nat → List Char → List Nat → Option Nat →
    Option (List Nat × Option Nat × List Char)
  | 0, s, acc, ell => some (acc, ell, s)
  | fuel + 1, s, acc, ell =>
    if 16 ≤ acc.length then some (acc, ell, s)
    else
      match xtoi s with
      | (n, cnt, ok) =>
        if ok = false ∨ 0xFFFF < n then none
        else if cnt < s.length ∧ (s.drop cnt).head? = some '.' then
          if (ell = none ∧ acc.length ≠ 12) ∨ 16 < acc.length + 4 then none
          else
            match parseIPv4 (String.mk s) with
            | [] => none
            | ip4 => some (acc ++ ip4.drop 12, ell, [])
        else
          let acc2 := acc ++ [n / 256, n % 256]
          let s2 := s.drop cnt
          if s2 = [] then some (acc2, ell, [])
          else if s2.head? ≠ some ':' ∨ s2.length = 1 then none
          else
            let s3 := s2.drop 1
            if s3.head? = some ':' then
              if ell ≠ none then none
              else
                let s4 := s3.drop 1
                if s4 = [] then some (acc2, some acc2.length, [])
                else parseV6Loop fuel s4 acc2 (some acc2.length)
            else parseV6Loop fuel s3 acc2 ell

/-- parseIPv6 of the Go net package: optional leading ellipsis, the group loop, then
the remainder must be empty and the ellipsis (if any) is expanded with
zero bytes to reach exactly 16 bytes. -/
def parseIPv6 (str : String) : IP :=
  let s0 := str.toList
  let pre : Bool := decide (2 ≤ s0.length) && (s0.head? == some ':')
      && ((s0.drop 1).head? == some ':')
  let s := if pre then s0.drop 2 else s0
  let ell : Option Nat := if pre then some 0 else none
  if pre && s.isEmpty then List.replicate 16 0
  else
    match parseV6Loop 9 s [] ell with
    | none => []
    | some (acc, ellF, rest) =>
      if rest ≠ [] then []
      else if acc.length < 16 then
        match ellF with
        | none => []
        | some e => acc.take e ++ List.replicate (16 - acc.length) 0 ++ acc.drop e
      else if ellF ≠ none then [] else acc

/-- Dispatch scan of Go net.ParseIP: the first dot or colon selects the
IPv4 or the IPv6 grammar; no separator at all means nil. -/
def parseIPScan : List Char → String → IP
  | [], _ => []
  | c :: rest, s =>
    if c = '.' then parseIPv4 s
    else if c = ':' then parseIPv6 s
    else parseIPScan rest s

/-- Go net.ParseIP; the empty list models the nil result. -/
def parseIP (s : String) : IP :=
  parseIPScan s.toList s

/-- Generic JSON value, as produced by json.Unmarshal into
map[string]interface{}.  Numbers are modelled at the integral values the
API uses (Go decodes them as float64; no claim does arithmetic on
them). -/
inductive JVal where
  | null
  | bool (b : Bool)
  | num (n : Int)
  | str (s : String)
  | obj (fields : List (String × JVal))
  | arr (elems : List JVal)

/-- Lookup in a decoded JSON object: a missing key yields the nil
interface value, exactly like indexing a Go map, so both an absent key
and an explicit JSON null are JVal.null. -/
def jlookup (o : List (String × JVal)) (k : String) : JVal :=
  match o.find? (fun p => p.1 == k) with
  | some p => p.2
  | none => JVal.null

/-- Response body after json.Unmarshal: invalid covers any text the
unmarshaller rejects (in particular the empty string a failed curl call
yields) and non-object top levels. -/
inductive Body where
  | invalid
  | json (top : List (String × JVal))

/-- Outcome of the Go pair (net.IP, error) returned by
getActiveIPFromJSON, plus the runtime panic a failed interface type
assertion would raise. -/
inductive GoRet where
  | ret (ip : IP) (errored : Bool)
  | panicked
deriving DecidableEq, Repr

/-- getActiveIPFromJSON (hetznerConfigurer.go lines 126-172): unmarshal
failure is an error; a body with an error key logs the status, code and
message fields and returns an error; a body with a failover key reads
the five fields and returns net.ParseIP of active_server_ip with a nil
error (note: no validity check on that field); any other body is the
final "why did we end up here?" error.  Interface type assertions on
ill-typed fields panic. -/
def getActiveIPFromJSON : Body → GoRet
  | Body.invalid => GoRet.ret [] true
  | Body.json f =>
    match jlookup f "error" with
    | JVal.null =>
      match jlookup f "failover" with
      | JVal.null => GoRet.ret [] true
      | JVal.obj fo =>
        (match jlookup fo "ip", jlookup fo "netmask", jlookup fo "server_ip",
               jlookup fo "server_number", jlookup fo "active_server_ip" with
         | JVal.str _, JVal.str _, JVal.str _, JVal.num _, JVal.str active =>
             GoRet.ret (parseIP active) false
         | _, _, _, _, _ => GoRet.panicked)
      | _ => GoRet.panicked
    | JVal.obj eo =>
      (match jlookup eo "status", jlookup eo "code", jlookup eo "message" with
       | JVal.num _, JVal.str _, JVal.str _ => GoRet.ret [] true
       | _, _, _ => GoRet.panicked)
    | _ => GoRet.panicked

/-- The HetznerConfigurer instance state: cached belief, time of the
last API check (nanoseconds since the epoch; newHetznerConfigurer sets
time.Unix(0, 0), i.e. 0), credentials, verbosity and the managed
failover IP rendered as a string (IPConfiguration.VIP.String()). -/
structure Configurer where
  cachedState : CachedState
  lastAPICheck : Int
  username : String
  password : String
  verbose : Bool
  vip : String
deriving DecidableEq, Repr

/-- Result of one configurer operation: the returned boolean together
with the instance state after the call, or a runtime panic (carrying the
state at the moment of the panic). -/
inductive QueryOutcome where
  | ret (b : Bool) (c : Configurer)
  | panicked (c : Configurer)
deriving DecidableEq, Repr

/-- Configurer state carried by an outcome. -/
def QueryOutcome.conf : QueryOutcome → Configurer
  | QueryOutcome.ret _ c => c
  | QueryOutcome.panicked c => c

/-- Nanoseconds of the Go time.Hour constant. -/
def nsPerHour : Int := 3600000000000

/-- Lines 200-213 of queryAddress: parse the body (the error result is
used even when parsing failed), set the state to unknown on a parse
error, then fall through to the comparison of the parsed IP against this
outbound IP of the node, which overwrites the state with configured or
released and decides the returned boolean. -/
def queryAddressParse (c : Configurer) (body : Body) (outbound : IP) :
    QueryOutcome :=
  match getActiveIPFromJSON body with
  | GoRet.panicked => QueryOutcome.panicked c
  | GoRet.ret ip errored =>
    let c2 := if errored then { c with cachedState := CachedState.unknown } else c
    if ipEqual ip outbound then
      QueryOutcome.ret true { c2 with cachedState := CachedState.configured }
    else
      QueryOutcome.ret false { c2 with cachedState := CachedState.released }

/-- Lines 192-213 of queryAddress: issue the read request; a transport
error sets the state to unknown and leaves lastAPICheck alone (the body
seen downstream is the empty string, which fails to unmarshal), while a
completed request updates lastAPICheck to now before parsing. -/
def queryAddressRefresh (c : Configurer) (now : Int) (curl : Option Body)
    (outbound : IP) : QueryOutcome :=
  match curl with
  | none =>
    queryAddressParse { c with cachedState := CachedState.unknown } Body.invalid outbound
  | some body =>
    queryAddressParse { c with lastAPICheck := now } body outbound

/-- queryAddress (hetznerConfigurer.go lines 174-214).  The guard is the
source expression (time.Since(c.lastAPICheck) / time.Hour) > 1 with the Go
truncating integer division on int64 Durations; when it holds the cached
state is dropped to unknown and a refresh is forced, otherwise a
configured or released cache answers directly and only an unknown cache
refreshes. -/
def queryAddress (c : Configurer) (now : Int) (curl : Option Body)
    (outbound : IP) : QueryOutcome :=
  if 1 < Int.tdiv (now - c.lastAPICheck) nsPerHour then
    queryAddressRefresh { c with cachedState := CachedState.unknown } now curl outbound
  else if c.cachedState = CachedState.configured then QueryOutcome.ret true c
  else if c.cachedState = CachedState.released then QueryOutcome.ret false c
  else queryAddressRefresh c now curl outbound

/-- deconfigureAddress (lines 222-227): purely local bookkeeping, no
remote call is modelled because the source performs none. -/
def deconfigureAddress (c : Configurer) : Bool × Configurer :=
  (true, { c with cachedState := CachedState.released })

/-- runAddressConfiguration (lines 229-257): the write request first
resolves the outbound IP inside curlQueryFailover(true) and fails
outright when it is nil; a transport error or a parse error sets the
state to unknown and returns false without touching lastAPICheck; after
a successful parse lastAPICheck is set to now and the reported IP is
compared against the outbound IP: equal yields configured/true,
different yields unknown/false. -/
def runAddressConfiguration (c : Configurer) (now : Int) (curl : Option Body)
    (outbound : IP) : QueryOutcome :=
  match (if outbound = ([] : IP) then none else curl) with
  | none => QueryOutcome.ret false { c with cachedState := CachedState.unknown }
  | some body =>
    match getActiveIPFromJSON body with
    | GoRet.panicked => QueryOutcome.panicked c
    | GoRet.ret ip errored =>
      if errored then
        QueryOutcome.ret false { c with cachedState := CachedState.unknown }
      else
        let c2 := { c with lastAPICheck := now }
        if ipEqual ip outbound then
          QueryOutcome.ret true { c2 with cachedState := CachedState.configured }
        else
          QueryOutcome.ret false { c2 with cachedState := CachedState.unknown }

/-- configureAddress (lines 216-220) delegates to
runAddressConfiguration. -/
def configureAddress (c : Configurer) (now : Int) (curl : Option Body)
    (outbound : IP) : QueryOutcome :=
  runAddressConfiguration c now curl outbound

/-- cleanupArp (lines 259-262): a no-op kept for the shared interface. -/
def cleanupArp (c : Configurer) : Configurer := c

/-- Fixed redaction marker used in verbose logging of the curl call. -/
def redactionMarker : String := "XXXXXX"

/-- Endpoint URL built in curlQueryFailover. -/
def apiURL (c : Configurer) : String :=
  "https://robot-ws.your-server.de/failover/" ++ c.vip

/-- Argument vector of the curl command issued by curlQueryFailover
(lines 82-86 for the write, 97-100 for the read): the credential
argument carries the real password. -/
def curlCmdArgs (c : Configurer) (post : Bool) (myOwnIP : String) : List String :=
  if post then
    ["curl", "--ipv4", "-u", c.username ++ ":" ++ c.password, apiURL c,
     "-d", "active_server_ip=" ++ myOwnIP]
  else
    ["curl", "--ipv4", "-u", c.username ++ ":" ++ c.password, apiURL c]

/-- Rendering of a seven-element argument vector by the verbose write
log format, which single-quotes the credential argument. -/
def renderLogPost : List String → String
  | [a0, a1, a2, a3, a4, a5, a6] =>
    a0 ++ " " ++ a1 ++ " " ++ a2 ++ " \x27" ++ a3 ++ "\x27 " ++ a4 ++ " " ++ a5 ++ " " ++ a6
  | _ => ""

/-- Rendering of a five-element argument vector by the verbose read log
format. -/
def renderLogGet : List String → String
  | [a0, a1, a2, a3, a4] =>
    a0 ++ " " ++ a1 ++ " " ++ a2 ++ " " ++ a3 ++ " " ++ a4
  | _ => ""

/-- Verbose log line of curlQueryFailover (lines 88-95 for the write,
102-108 for the read): the same argument vector with the literal
username:XXXXXX in the credential position; emitted only when the
verbose flag is set. -/
def curlVerboseLog (c : Configurer) (post : Bool) (myOwnIP : String) :
    Option String :=
  if c.verbose = false then none
  else if post then
    some ("curl" ++ " " ++ "--ipv4" ++ " " ++ "-u" ++ " \x27"
      ++ (c.username ++ ":XXXXXX") ++ "\x27 " ++ apiURL c ++ " " ++ "-d" ++ " "
      ++ ("active_server_ip=" ++ myOwnIP))
  else
    some ("curl" ++ " " ++ "--ipv4" ++ " " ++ "-u" ++ " "
      ++ (c.username ++ ":XXXXXX") ++ " " ++ apiURL c)

/-- Concrete configurer used by witnesses and counterexamples: freshly
constructed state (unknown, lastAPICheck 0) with verbose logging. -/
def cfgA : Configurer :=
  { cachedState := CachedState.unknown, lastAPICheck := 0,
    username := "user", password := "secret", verbose := true,
    vip := "10.0.0.1" }

/-- Variant of cfgA whose cache currently says configured. -/
def cfgC : Configurer := { cfgA with cachedState := CachedState.configured }

/-- Variant of cfgA whose cache currently says released. -/
def cfgR : Configurer := { cfgA with cachedState := CachedState.released }

/-- A resolved outbound IP used by witnesses and counterexamples. -/
def outA : IP := parseIP "1.2.3.4"

/-- Canned well-formed provider error payload. -/
def errBody : Body :=
  Body.json [("error", JVal.obj
    [("status", JVal.num 404), ("code", JVal.str "NOT_FOUND"),
     ("message", JVal.str "ip not found")])]

/-- Fields of a canned failover payload reporting the given
active_server_ip. -/
def foFields (active : String) : List (String × JVal) :=
  [("ip", JVal.str "10.0.0.1"), ("netmask", JVal.str "255.255.255.255"),
   ("server_ip", JVal.str "1.2.3.4"), ("server_number", JVal.num 321),
   ("active_server_ip", JVal.str active)]

/-- Canned well-formed failover payload reporting the given
active_server_ip. -/
def failoverBody (active : String) : Body :=
  Body.json [("failover", JVal.obj (foFields active))]

/-- The source guard of queryAddress, a truncating division of the
elapsed nanoseconds by one hour compared against 1, holds exactly when
at least two full hours have elapsed. -/
theorem div_hour_gt_one_iff (e : Int) :
    1 < Int.tdiv e nsPerHour ↔ 2 * nsPerHour ≤ e := by
  have hns : nsPerHour = (3600000000000 : Int) := rfl
  cases e with
  | ofNat m =>
    rw [show Int.tdiv (Int.ofNat m) nsPerHour
          = ((m / 3600000000000 : Nat) : Int) from rfl, hns,
        show Int.ofNat m = ((m : Nat) : Int) from rfl]
    omega
  | negSucc m =>
    rw [show Int.tdiv (Int.negSucc m) nsPerHour
          = -(((m + 1) / 3600000000000 : Nat) : Int) from rfl, hns, Int.negSucc_eq]
    omega

/-- Concatenating a colon and the redaction marker behind a username is
the same as concatenating the combined literal. -/
theorem append_colon_marker (u : String) : u ++ ":" ++ "XXXXXX" = u ++ ":XXXXXX" := by
  rw [String.append_assoc]
  congr 1

/-- The fall-through parse-and-compare tail of queryAddress never
touches lastAPICheck. -/
theorem queryAddressParse_lastAPICheck (c : Configurer) (body : Body) (outbound : IP) :
    (queryAddressParse c body outbound).conf.lastAPICheck = c.lastAPICheck := by
  unfold queryAddressParse
  cases hg : getActiveIPFromJSON body with
  | panicked => rfl
  | ret ip errored =>
    cases errored <;> dsimp only <;> split <;> rfl

/-- Whenever the fall-through parse-and-compare tail of queryAddress
returns, the final comparison has overwritten the cached state with
configured or released, and the returned boolean is true exactly in the
configured case. -/
theorem queryAddressParse_ret_state (c : Configurer) (body : Body) (outbound : IP)
    (b : Bool) (c2 : Configurer)
    (h : queryAddressParse c body outbound = QueryOutcome.ret b c2) :
    (c2.cachedState = CachedState.configured ∨ c2.cachedState = CachedState.released)
    ∧ (b = true ↔ c2.cachedState = CachedState.configured) := by
  unfold queryAddressParse at h
  cases hg : getActiveIPFromJSON body with
  | panicked => rw [hg] at h; cases h
  | ret ip errored =>
    rw [hg] at h
    dsimp only at h
    by_cases he : ipEqual ip outbound = true
    · rw [if_pos he] at h
      injection h with hb hc
      subst hb; subst hc
      constructor
      · left; rfl
      · simp
    · rw [if_neg he] at h
      injection h with hb hc
      subst hb; subst hc
      constructor
      · right; rfl
      · simp

/-- A refresh whose transport fails never touches lastAPICheck. -/
theorem queryAddressRefresh_lastAPICheck_none (c : Configurer) (now : Int) (outbound : IP) :
    (queryAddressRefresh c now none outbound).conf.lastAPICheck = c.lastAPICheck := by
  simp only [queryAddressRefresh]
  exact queryAddressParse_lastAPICheck _ _ _

/-- A refresh whose transport completes stamps lastAPICheck with the
current time before parsing. -/
theorem queryAddressRefresh_lastAPICheck_some (c : Configurer) (now : Int) (body : Body)
    (outbound : IP) :
    (queryAddressRefresh c now (some body) outbound).conf.lastAPICheck = now := by
  simp only [queryAddressRefresh]
  exact queryAddressParse_lastAPICheck _ _ _

/-- Refresh-path form of queryAddressParse_ret_state. -/
theorem queryAddressRefresh_ret_state (c : Configurer) (now : Int) (curl : Option Body)
    (outbound : IP) (b : Bool) (c2 : Configurer)
    (h : queryAddressRefresh c now curl outbound = QueryOutcome.ret b c2) :
    (c2.cachedState = CachedState.configured ∨ c2.cachedState = CachedState.released)
    ∧ (b = true ↔ c2.cachedState = CachedState.configured) := by
  unfold queryAddressRefresh at h
  cases curl with
  | none => exact queryAddressParse_ret_state _ _ _ _ _ h
  | some body => exact queryAddressParse_ret_state _ _ _ _ _ h

/-- Claim C1 (code bug, evaluation at the failing inputs): on a
transport failure during a forced refresh the call does return false
and does leave lastAPICheck alone, but the cached state ends up released
rather than the claimed Unknown, because the code falls through to the
ownership comparison with a nil parsed IP; worse, when the outbound
lookup also yields nil the nil-to-nil comparison succeeds and the call
returns true with state configured. -/
theorem queryAddress_transport_failure_eval :
    queryAddress cfgC 10800000000000 none outA
      = QueryOutcome.ret false { cfgC with cachedState := CachedState.released }
    ∧ queryAddress cfgA 0 none []
      = QueryOutcome.ret true { cfgA with cachedState := CachedState.configured }
    ∧ CachedState.released ≠ CachedState.unknown := by
  refine ⟨by decide, by decide, by decide⟩

/-- Claim C2 (counterexample): with the cache saying configured and
exactly one hour elapsed since lastAPICheck, queryAddress serves the
cached true and changes nothing, although the claim demands that the
one-hour boundary force a refresh with the state dropped to Unknown. -/
theorem queryAddress_ttl_one_hour_cex :
    queryAddress cfgC 3600000000000 none [] = QueryOutcome.ret true cfgC
    ∧ (3600000000000 : Int) - cfgC.lastAPICheck = nsPerHour
    ∧ cfgC.cachedState ≠ CachedState.unknown := by
  refine ⟨by decide, by decide, by decide⟩

/-- Claim C2 (amended): the guard divides the elapsed time by one hour
with truncation and compares against 1, so the cached belief is trusted
while strictly less than two hours have elapsed; a refresh, with the
state first dropped to unknown, is forced exactly when at least two
hours have elapsed, and a check at exactly the one-hour boundary is
still served from the cache. -/
theorem queryAddress_ttl_two_hours (c : Configurer) (now : Int) (curl : Option Body)
    (outbound : IP) :
    (2 * nsPerHour ≤ now - c.lastAPICheck →
       queryAddress c now curl outbound
         = queryAddressRefresh { c with cachedState := CachedState.unknown } now curl outbound)
    ∧ (now - c.lastAPICheck < 2 * nsPerHour →
       (c.cachedState = CachedState.configured →
          queryAddress c now curl outbound = QueryOutcome.ret true c)
       ∧ (c.cachedState = CachedState.released →
          queryAddress c now curl outbound = QueryOutcome.ret false c)
       ∧ (c.cachedState = CachedState.unknown →
          queryAddress c now curl outbound = queryAddressRefresh c now curl outbound)) := by
  constructor
  · intro h
    unfold queryAddress
    rw [if_pos ((div_hour_gt_one_iff _).mpr h)]
  · intro h
    have hg : ¬ 1 < Int.tdiv (now - c.lastAPICheck) nsPerHour := by
      rw [div_hour_gt_one_iff]
      omega
    refine ⟨fun hs => ?_, fun hs => ?_, fun hs => ?_⟩ <;>
      unfold queryAddress <;> rw [if_neg hg] <;> simp [hs]

/-- Claim C2 (witness): at exactly two hours the refresh is forced and
at exactly one hour the cache still answers. -/
theorem queryAddress_ttl_two_hours_w :
    queryAddress cfgC 7200000000000 none outA
      = queryAddressRefresh { cfgC with cachedState := CachedState.unknown }
          7200000000000 none outA
    ∧ queryAddress cfgC 3600000000000 none outA = QueryOutcome.ret true cfgC := by
  constructor
  · exact (queryAddress_ttl_two_hours cfgC 7200000000000 none outA).1 (by decide)
  · exact ((queryAddress_ttl_two_hours cfgC 3600000000000 none outA).2 (by decide)).1 rfl

/-- Claim C3 (code bug, evaluation at the failing input): a refresh that
receives a well-formed provider error payload returns false and updates
lastAPICheck as the claim states, but the cached state ends up released
rather than the claimed Unknown: the interim unknown assignment is
overwritten by the fall-through ownership comparison. -/
theorem queryAddress_api_error_eval :
    queryAddress cfgA 10800000000000 (some errBody) outA
      = QueryOutcome.ret false
          { cfgA with lastAPICheck := 10800000000000,
                      cachedState := CachedState.released }
    ∧ CachedState.released ≠ CachedState.unknown := by
  refine ⟨by decide, by decide⟩

/-- Claim C4: when the write completes and parses, runAddressConfiguration
compares the reported active server IP with the outbound IP of this
node: a mismatch yields false with the cached state set to unknown
(never configured), and true is returned exactly when the two are
equal. -/
theorem configureAddress_verifies_ownership (c : Configurer) (now : Int) (body : Body)
    (ip outbound : IP) (hout : outbound ≠ [])
    (hparse : getActiveIPFromJSON body = GoRet.ret ip false) :
    (ipEqual ip outbound = false →
       configureAddress c now (some body) outbound
         = QueryOutcome.ret false
             { c with lastAPICheck := now, cachedState := CachedState.unknown })
    ∧ (ipEqual ip outbound = true →
       configureAddress c now (some body) outbound
         = QueryOutcome.ret true
             { c with lastAPICheck := now, cachedState := CachedState.configured }) := by
  constructor <;> intro he <;>
    simp [configureAddress, runAddressConfiguration, hout, hparse, he]

/-- Claim C4 (witness): a reported active server IP different from the
outbound IP makes the configure call fail with state unknown. -/
theorem configureAddress_verifies_ownership_w :
    configureAddress cfgA 7 (some (failoverBody "5.6.7.8")) outA
      = QueryOutcome.ret false
          { cfgA with lastAPICheck := 7, cachedState := CachedState.unknown } :=
  (configureAddress_verifies_ownership cfgA 7 (failoverBody "5.6.7.8")
    (parseIP "5.6.7.8") outA (by decide) (by decide)).1 (by decide)

/-- Claim C5: while the source guard does not force a refresh, a cache
saying configured answers true and a cache saying released answers
false, with the whole configurer state unchanged; the conclusion holds
for every transport oracle, so no remote call is observable. -/
theorem queryOwnership_cache_hit (c : Configurer) (now : Int) (curl : Option Body)
    (outbound : IP)
    (httl : ¬ 1 < Int.tdiv (now - c.lastAPICheck) nsPerHour) :
    (c.cachedState = CachedState.configured →
       queryAddress c now curl outbound = QueryOutcome.ret true c)
    ∧ (c.cachedState = CachedState.released →
       queryAddress c now curl outbound = QueryOutcome.ret false c) := by
  constructor <;> intro hs <;> unfold queryAddress <;> rw [if_neg httl] <;> simp [hs]

/-- Claim C5 (witness): half an hour after a check, both cache values
answer directly, even against a transport oracle that would fail. -/
theorem queryOwnership_cache_hit_w :
    queryAddress cfgC 1800000000000 none outA = QueryOutcome.ret true cfgC
    ∧ queryAddress cfgR 1800000000000 none outA = QueryOutcome.ret false cfgR := by
  constructor
  · exact (queryOwnership_cache_hit cfgC 1800000000000 none outA (by decide)).1 rfl
  · exact (queryOwnership_cache_hit cfgR 1800000000000 none outA (by decide)).2 rfl

/-- Claim C6 (counterexample): a well-formed failover payload whose
active_server_ip is not a valid IP literal is accepted by
getActiveIPFromJSON with a nil IP and no error, although the claim
demands a Malformed failure. -/
theorem getActiveIPFromJSON_invalid_ip_cex :
    getActiveIPFromJSON (failoverBody "not-an-ip") = GoRet.ret [] false
    ∧ parseIP "not-an-ip" = [] := by
  refine ⟨by decide, by decide⟩

/-- Claim C6 (amended): the parser performs no validity check on
active_server_ip: for a body whose error key is absent and whose
failover key holds an object with well-typed fields, it returns
net.ParseIP of the active_server_ip string together with a nil error,
and that IP is simply nil when the string is not a valid address. -/
theorem getActiveIPFromJSON_no_ip_validation
    (f fo : List (String × JVal)) (ipS nmS sIPS : String) (sn : Int) (activeS : String)
    (herr : jlookup f "error" = JVal.null)
    (hfo : jlookup f "failover" = JVal.obj fo)
    (h1 : jlookup fo "ip" = JVal.str ipS)
    (h2 : jlookup fo "netmask" = JVal.str nmS)
    (h3 : jlookup fo "server_ip" = JVal.str sIPS)
    (h4 : jlookup fo "server_number" = JVal.num sn)
    (h5 : jlookup fo "active_server_ip" = JVal.str activeS) :
    getActiveIPFromJSON (Body.json f) = GoRet.ret (parseIP activeS) false := by
  simp only [getActiveIPFromJSON, herr, hfo, h1, h2, h3, h4, h5]

/-- Claim C6 (witness): the amended behaviour at a canned payload with a
valid address. -/
theorem getActiveIPFromJSON_no_ip_validation_w :
    getActiveIPFromJSON (failoverBody "1.2.3.4") = GoRet.ret (parseIP "1.2.3.4") false :=
  getActiveIPFromJSON_no_ip_validation
    [("failover", JVal.obj (foFields "1.2.3.4"))] (foFields "1.2.3.4")
    "10.0.0.1" "255.255.255.255" "1.2.3.4" 321 "1.2.3.4"
    rfl rfl rfl rfl rfl rfl rfl

/-- Claim C7 (counterexample): a read whose transport succeeds but whose
body fails to unmarshal still advances lastAPICheck, contradicting the
claimed update-only-if-parsed invariant. -/
theorem lastAPICheck_parse_failure_cex :
    (queryAddress cfgA 42 (some Body.invalid) outA).conf.lastAPICheck = 42
    ∧ cfgA.lastAPICheck ≠ 42
    ∧ getActiveIPFromJSON Body.invalid = GoRet.ret [] true := by
  refine ⟨by decide, by decide, by decide⟩

/-- Claim C7 (amended): queryAddress advances lastAPICheck exactly when
the transport call completes, even if the body then fails to parse;
runAddressConfiguration advances it exactly when the transport call
completes and the body parses without error; no operation advances it on
a transport failure, and deconfigureAddress leaves it unchanged. -/
theorem lastAPICheck_update_policy (c : Configurer) (now : Int) (body : Body)
    (outbound : IP) (ip : IP) :
    ((queryAddress c now none outbound).conf.lastAPICheck = c.lastAPICheck)
    ∧ (1 < Int.tdiv (now - c.lastAPICheck) nsPerHour ∨ c.cachedState = CachedState.unknown →
       (queryAddress c now (some body) outbound).conf.lastAPICheck = now)
    ∧ ((runAddressConfiguration c now none outbound).conf.lastAPICheck = c.lastAPICheck)
    ∧ (getActiveIPFromJSON body = GoRet.ret ip true →
       (runAddressConfiguration c now (some body) outbound).conf.lastAPICheck
         = c.lastAPICheck)
    ∧ (getActiveIPFromJSON body = GoRet.ret ip false → outbound ≠ [] →
       (runAddressConfiguration c now (some body) outbound).conf.lastAPICheck = now)
    ∧ ((deconfigureAddress c).2.lastAPICheck = c.lastAPICheck) := by
  refine ⟨?_, ?_, ?_, ?_, ?_, rfl⟩
  · unfold queryAddress
    split
    · exact queryAddressRefresh_lastAPICheck_none _ _ _
    · split
      · rfl
      · split
        · rfl
        · exact queryAddressRefresh_lastAPICheck_none _ _ _
  · intro h
    unfold queryAddress
    rcases h with h | h
    · rw [if_pos h]
      exact queryAddressRefresh_lastAPICheck_some _ _ _ _
    · by_cases hg : 1 < Int.tdiv (now - c.lastAPICheck) nsPerHour
      · rw [if_pos hg]
        exact queryAddressRefresh_lastAPICheck_some _ _ _ _
      · rw [if_neg hg, if_neg (by simp [h]), if_neg (by simp [h])]
        exact queryAddressRefresh_lastAPICheck_some _ _ _ _
  · rcases eq_or_ne outbound [] with ho | ho <;>
      simp [runAddressConfiguration, ho, QueryOutcome.conf]
  · intro hp
    rcases eq_or_ne outbound [] with ho | ho <;>
      simp [runAddressConfiguration, ho, hp, QueryOutcome.conf]
  · intro hp ho
    cases hi : ipEqual ip outbound <;>
      simp [runAddressConfiguration, ho, hp, hi, QueryOutcome.conf]

/-- Claim C7 (witness): the amended update policy at concrete inputs,
one per operation and transport outcome. -/
theorem lastAPICheck_update_policy_w :
    (queryAddress cfgA 42 none outA).conf.lastAPICheck = cfgA.lastAPICheck
    ∧ (queryAddress cfgA 42 (some Body.invalid) outA).conf.lastAPICheck = 42
    ∧ (runAddressConfiguration cfgA 42 none outA).conf.lastAPICheck = cfgA.lastAPICheck
    ∧ (runAddressConfiguration cfgA 42 (some errBody) outA).conf.lastAPICheck
        = cfgA.lastAPICheck
    ∧ (runAddressConfiguration cfgA 42 (some (failoverBody "1.2.3.4")) outA).conf.lastAPICheck
        = 42
    ∧ (deconfigureAddress cfgA).2.lastAPICheck = cfgA.lastAPICheck := by
  have h1 := lastAPICheck_update_policy cfgA 42 Body.invalid outA []
  have h2 := lastAPICheck_update_policy cfgA 42 errBody outA []
  have h3 := lastAPICheck_update_policy cfgA 42 (failoverBody "1.2.3.4") outA
    (parseIP "1.2.3.4")
  exact ⟨h1.1, h1.2.1 (Or.inr rfl), h1.2.2.1, h2.2.2.2.1 (by decide),
    h3.2.2.2.2.1 (by decide) (by decide), h1.2.2.2.2.2⟩

/-- Claim C8: deconfigureAddress is purely local bookkeeping: it takes
no transport input at all (the source performs no remote call), returns
true unconditionally, sets the cached state to released and leaves
lastAPICheck unchanged, from any starting state. -/
theorem deconfigureAddress_local_release (c : Configurer) :
    (deconfigureAddress c).1 = true
    ∧ (deconfigureAddress c).2.cachedState = CachedState.released
    ∧ (deconfigureAddress c).2.lastAPICheck = c.lastAPICheck :=
  ⟨rfl, rfl, rfl⟩

/-- Claim C9: with the verbose flag set, the issued curl argument vector
carries the real username:password credential, while the logged line is
exactly the issued request rendered with the password replaced by the
fixed marker XXXXXX; the log line is moreover identical for any two
passwords, so it carries no information about the real secret. -/
theorem curl_log_redacts_password (c : Configurer) (post : Bool) (myOwnIP : String)
    (hv : c.verbose = true) :
    (curlCmdArgs c post myOwnIP)[3]? = some (c.username ++ ":" ++ c.password)
    ∧ (∀ p1 p2, curlVerboseLog { c with password := p1 } post myOwnIP
        = curlVerboseLog { c with password := p2 } post myOwnIP)
    ∧ curlVerboseLog c post myOwnIP
        = some ((if post then renderLogPost else renderLogGet)
            (curlCmdArgs { c with password := redactionMarker } post myOwnIP)) := by
  refine ⟨?_, fun p1 p2 => rfl, ?_⟩
  · cases post <;> rfl
  · cases post <;>
      simp [curlVerboseLog, curlCmdArgs, renderLogPost, renderLogGet,
        redactionMarker, apiURL, hv, append_colon_marker]

/-- Claim C9 (witness): the redaction property at a concrete verbose
configurer and request. -/
theorem curl_log_redacts_password_w :
    (curlCmdArgs cfgA true "9.9.9.9")[3]? = some (cfgA.username ++ ":" ++ cfgA.password)
    ∧ (∀ p1 p2, curlVerboseLog { cfgA with password := p1 } true "9.9.9.9"
        = curlVerboseLog { cfgA with password := p2 } true "9.9.9.9")
    ∧ curlVerboseLog cfgA true "9.9.9.9"
        = some ((if (true : Bool) then renderLogPost else renderLogGet)
            (curlCmdArgs { cfgA with password := redactionMarker } true "9.9.9.9")) :=
  curl_log_redacts_password cfgA true "9.9.9.9" rfl

/-- Claim C10: whenever queryAddress takes the refresh path (guard
expired or cached state unknown) and returns, the cached state on return
is configured or released, never unknown, and the returned boolean is
true exactly when the post-state is configured. -/
theorem queryAddress_refresh_never_unknown (c : Configurer) (now : Int)
    (curl : Option Body) (outbound : IP) (b : Bool) (c2 : Configurer)
    (hr : 1 < Int.tdiv (now - c.lastAPICheck) nsPerHour ∨ c.cachedState = CachedState.unknown)
    (h : queryAddress c now curl outbound = QueryOutcome.ret b c2) :
    (c2.cachedState = CachedState.configured ∨ c2.cachedState = CachedState.released)
    ∧ (b = true ↔ c2.cachedState = CachedState.configured) := by
  unfold queryAddress at h
  by_cases hg : 1 < Int.tdiv (now - c.lastAPICheck) nsPerHour
  · rw [if_pos hg] at h
    exact queryAddressRefresh_ret_state _ _ _ _ _ _ h
  · rw [if_neg hg] at h
    rcases hr with hr | hr
    · exact absurd hr hg
    · rw [if_neg (by simp [hr]), if_neg (by simp [hr])] at h
      exact queryAddressRefresh_ret_state _ _ _ _ _ _ h

/-- Claim C10 (witness): a refresh that finds this node as the active
failover target ends configured with a true return. -/
theorem queryAddress_refresh_never_unknown_w :
    (({ cfgA with lastAPICheck := 7, cachedState := CachedState.configured } : Configurer).cachedState
        = CachedState.configured
      ∨ ({ cfgA with lastAPICheck := 7, cachedState := CachedState.configured } : Configurer).cachedState
        = CachedState.released)
    ∧ (true = true ↔
        ({ cfgA with lastAPICheck := 7, cachedState := CachedState.configured } : Configurer).cachedState
          = CachedState.configured) :=
  queryAddress_refresh_never_unknown cfgA 7 (some (failoverBody "1.2.3.4")) outA true
    { cfgA with lastAPICheck := 7, cachedState := CachedState.configured }
    (Or.inr rfl) (by decide)

end VipManager
